import Mathlib

/-!
Verification development for the ConnectorAdminAssist backend
(`src/backend/app.py`, a single FastAPI module).

The Python module is shallowly embedded below:

* strings are Lean `String`s; Python's substring test `t in s` is
  `containsStr s t`; `str.lower()` is `lower` (ASCII-faithful);
* the global session dictionary is an association list
  `Sessions = List (String × SessionState)`;
* the module's global namespace is a record `ModuleGlobals`; the field
  `state : Option SessionState` models the global name `state` that the
  handlers `/me` and `/agent/chat` reference: `none` means the name is
  unbound (referencing it raises `NameError`), which is the actual
  situation in the source — the `AgentState` global was removed
  (comment at app.py line 95) and nothing assigns `state`;
* network calls are oracles: a `GraphClient` carries the result its
  `me.get()` call will produce, a `Broker` is a function from the
  composed instruction bundle to the completion result;
* each HTTP handler is a pure function returning an `HttpOutcome`:
  `ok` (a 200 body), `httpError` (an `HTTPException`), or
  `unhandledExc` (an exception escaping the handler, which the
  framework turns into a 500).

The long English prompt texts selected by the `/agent/chat` dispatch
chain are abstracted as tags of the inductive `SystemPrompt`, one
constructor per branch of the source's if/elif chain in order; the
deterministically computed values embedded in the prompts (the
display-name suggestion) are kept exactly.
-/

/-- `needleOccurs n h` decides whether `n` is a contiguous sublist of `h`. -/
def needleOccurs (n : List Char) : List Char → Bool
  | [] => n.isEmpty
  | c :: tl => n.isPrefixOf (c :: tl) || needleOccurs n tl

/-- Python's `needle in haystack` for strings: contiguous-substring test. -/
def containsStr (haystack needle : String) : Bool :=
  needleOccurs needle.data haystack.data

/-- Python's `str.lower()` (ASCII-faithful; all literals in the source are ASCII). -/
def lower (s : String) : String :=
  ⟨s.data.map Char.toLower⟩

/-- The apostrophe/single-quote character used by the connector-context regex. -/
def quoteChar : Char := Char.ofNat 39

/-- Python's regex `\s` over ASCII: space, tab, newline, carriage return,
form feed, vertical tab. -/
def isPySpace (c : Char) : Bool :=
  c = ' ' || c = Char.ofNat 9 || c = Char.ofNat 10 || c = Char.ofNat 13 ||
  c = Char.ofNat 12 || c = Char.ofNat 11

/-- The literal part of the regex `Connector context:\s*'([^']+)'` (app.py line 313). -/
def ctxLiteral : List Char := "Connector context:".data

/-- Attempt to match `\s*'([^']+)'` at the start of `cs` (the text directly
after an occurrence of the literal `Connector context:`), returning the
captured group. -/
def matchCtxTail (cs : List Char) : Option (List Char) :=
  let rest := cs.dropWhile isPySpace
  match rest with
  | [] => none
  | q :: rest2 =>
    if q = quoteChar then
      let grp := rest2.takeWhile (fun c => !(c = quoteChar))
      let after := rest2.dropWhile (fun c => !(c = quoteChar))
      if grp.isEmpty then none
      else if after.isEmpty then none
      else some grp
    else none

/-- `re.search(r"Connector context:\s*'([^']+)'", text)`: leftmost match,
returning group 1. Positions are tried left to right, as the regex engine does. -/
def searchCtx : List Char → Option (List Char)
  | [] => none
  | c :: tl =>
    if ctxLiteral.isPrefixOf (c :: tl) then
      match matchCtxTail ((c :: tl).drop ctxLiteral.length) with
      | some g => some g
      | none => searchCtx tl
    else searchCtx tl

/-- Captured connector-context label of a message, if any (app.py line 313).
The regex is applied to the original-case message. -/
def connectorContextLabel (s : String) : Option String :=
  (searchCtx s.data).map List.asString

/-- Python's `str.split(' ')[0]`: the characters before the first space. -/
def firstWord (s : String) : String :=
  ⟨s.data.takeWhile (fun c => !(c = ' '))⟩

/-- Python's `str.capitalize()`: first character upper-cased, the rest lower-cased. -/
def pyCapitalize (s : String) : String :=
  match s.data with
  | [] => ""
  | c :: cs => ⟨c.toUpper :: cs.map Char.toLower⟩

/-- One tag per branch of the `/agent/chat` system-prompt dispatch chain
(app.py lines 266-1032), in source order. The `displayName` tag carries
the deterministically computed parameters of its prompt: the resolved
tool name, the default object noun, and the final display-name
suggestion embedded verbatim in the prompt text (app.py line 320). -/
inductive SystemPrompt where
  /-- The general DOM-guided default prompt (lines 244-264), used when no
  trigger token is present in the message. -/
  | defaultDomGuide
  /-- Display-name branch (line 277): connection-naming logic. -/
  | displayName (toolName defaultObj suggestion : String)
  /-- `"description"` branch (line 349). -/
  | descriptionField
  /-- `"confirm the output matches"` branch (line 365): Phase 1 installation. -/
  | phase1Install
  /-- `"phase 1"` branch (line 390): Phase 2 registration config. -/
  | phase2Config
  /-- `"phase 2"` branch (line 416): Phase 3 Azure app creation. -/
  | phase3AzureApp
  /-- `"confirm-gca-phase3"` / `"microsoft graph"` branch (line 455). -/
  | phase3AppPermissions
  /-- `"confirm-gca-phase3-done"` / `"user added application permission"` branch (line 486). -/
  | phase3ExternalConnection
  /-- `"confirm-gca-phase3-final"` / `"user added externalconnection permission"` branch (line 514). -/
  | phase3DirectoryPermission
  /-- `"confirm-gca-permissions-all"` / `"user added directory permission"` branch (line 542). -/
  | phase3AdminConsent
  /-- `"confirm-gca-consent"` / `"user granted admin consent"` branch (line 569). -/
  | phase3CertificatesPage
  /-- `"confirm-gca-cert-page"` / `"user opened certificates"` branch (line 591). -/
  | phase3NewSecret
  /-- `"confirm-gca-new-secret"` / `"user clicked new client secret"` branch (line 613). -/
  | phase3SecretDetails
  /-- `"confirm-gca-secret-added"` / `"user added secret"` branch (line 637). -/
  | phase3CopySecretValue
  /-- `"confirm-gca-secret-value"` / `"user recorded secret"` branch (line 664). -/
  | phase3CopyAppId
  /-- `"confirm-gca-final-appid"` / `"user recorded app id"` branch (line 688). -/
  | phase4RegisterAgent
  /-- `"confirm-gca-register-clicked"` / `"user clicked register"` branch (line 713). -/
  | phase4HealthCheck
  /-- `"confirm-gca-health-check-clicked"` / `"user clicked health check"` branch (line 736). -/
  | phase4VerifySuccess
  /-- `"confirm-gca-health-success"` / `"user confirmed success"` branch (line 759). -/
  | phase5SelectAgent
  /-- `"confirm-gca-selected"` / `"user selected gca"` branch (line 786). -/
  | authTransition
  /-- `"guide-jira-oauth"` branch (line 815). -/
  | jiraOauthGuide
  /-- `"confirm-jira-oauth-done"` branch (line 856). -/
  | jiraOauthDone
  /-- `"confirm-auth-success"` branch (line 866). -/
  | authSuccess
  /-- `"start-gca-install-guide"` branch (line 880). -/
  | gcaInstallGuide
  /-- `"authentication type"` / `"client id"` / `"client secret"` branch (line 920). -/
  | authTypeField
  /-- `"graph connector agent"` / `"agent"` branch (line 937). -/
  | agentDropdown
  /-- Final `else`: the general field-focus prompt (line 1019). -/
  | generalField
deriving DecidableEq, Repr

/-- True for the connection-naming branch of the dispatch chain. -/
def SystemPrompt.isNaming : SystemPrompt → Bool
  | .displayName _ _ _ => true
  | _ => false

/-- The trigger list of app.py line 270. -/
def triggers : List String :=
  ["field_focus", "focused on field", "confirm the output matches", "phase 1", "phase 2"]

/-- Gate of the special-handling block (app.py line 271):
`any(t in msg_lower for t in triggers) or "action:" in msg_lower`. -/
def triggered (msg_lower : String) : Bool :=
  triggers.any (fun t => containsStr msg_lower t) || containsStr msg_lower "action:"

/-- Condition of the first branch of the chain (app.py line 277):
`("display name" in msg_lower or "name" in msg_lower) and "phase 2" not in msg_lower`. -/
def nameBranchCond (msg_lower : String) : Bool :=
  (containsStr msg_lower "display name" || containsStr msg_lower "name") &&
    !(containsStr msg_lower "phase 2")

/-- Keyword-to-tool resolution of the display-name branch (app.py lines
283-316). `combined_text` is the lower-cased message; the regex fallback
runs over the original-case message. Returns `(tool_name, default_obj)`. -/
def toolAndObj (combined_text user_msg : String) : String × String :=
  if containsStr combined_text "jira" then ("Jira", "Tickets")
  else if containsStr combined_text "servicenow" then ("ServiceNow", "Incidents")
  else if containsStr combined_text "oracle" then ("Oracle", "DB")
  else if containsStr combined_text "azure devops" || containsStr combined_text "ado" then
    ("ADO", "WorkItems")
  else if containsStr combined_text "salesforce" || containsStr combined_text "sfdc" then
    ("SFDC", "Accounts")
  else if containsStr combined_text "confluence" then ("Confluence", "Pages")
  else if containsStr combined_text "media" then ("MediaWiki", "Wikis")
  else
    match connectorContextLabel user_msg with
    | some label => (pyCapitalize (firstWord label), "Items")
    | none => ("Tool", "Items")

/-- True when none of the nine tool keywords of the display-name branch
(app.py lines 290-310) occurs in the lower-cased message. -/
def noToolKeyword (combined_text : String) : Bool :=
  !(containsStr combined_text "jira") && !(containsStr combined_text "servicenow") &&
  !(containsStr combined_text "oracle") && !(containsStr combined_text "azure devops") &&
  !(containsStr combined_text "ado") && !(containsStr combined_text "salesforce") &&
  !(containsStr combined_text "sfdc") && !(containsStr combined_text "confluence") &&
  !(containsStr combined_text "media")

/-- The elif chain from the `"description"` branch down to the final `else`
(app.py lines 349-1032); the display-name branch is split off in
`selectPrompt` so that it is manifest that no other branch produces the
naming prompt. -/
def restChain (msg_lower : String) : SystemPrompt :=
  if containsStr msg_lower "description" then .descriptionField
  else if containsStr msg_lower "confirm the output matches" then .phase1Install
  else if containsStr msg_lower "phase 1" then .phase2Config
  else if containsStr msg_lower "phase 2" then .phase3AzureApp
  else if containsStr msg_lower "confirm-gca-phase3" || containsStr msg_lower "microsoft graph" then
    .phase3AppPermissions
  else if containsStr msg_lower "confirm-gca-phase3-done" ||
      containsStr msg_lower "user added application permission" then
    .phase3ExternalConnection
  else if containsStr msg_lower "confirm-gca-phase3-final" ||
      containsStr msg_lower "user added externalconnection permission" then
    .phase3DirectoryPermission
  else if containsStr msg_lower "confirm-gca-permissions-all" ||
      containsStr msg_lower "user added directory permission" then
    .phase3AdminConsent
  else if containsStr msg_lower "confirm-gca-consent" ||
      containsStr msg_lower "user granted admin consent" then
    .phase3CertificatesPage
  else if containsStr msg_lower "confirm-gca-cert-page" ||
      containsStr msg_lower "user opened certificates" then
    .phase3NewSecret
  else if containsStr msg_lower "confirm-gca-new-secret" ||
      containsStr msg_lower "user clicked new client secret" then
    .phase3SecretDetails
  else if containsStr msg_lower "confirm-gca-secret-added" ||
      containsStr msg_lower "user added secret" then
    .phase3CopySecretValue
  else if containsStr msg_lower "confirm-gca-secret-value" ||
      containsStr msg_lower "user recorded secret" then
    .phase3CopyAppId
  else if containsStr msg_lower "confirm-gca-final-appid" ||
      containsStr msg_lower "user recorded app id" then
    .phase4RegisterAgent
  else if containsStr msg_lower "confirm-gca-register-clicked" ||
      containsStr msg_lower "user clicked register" then
    .phase4HealthCheck
  else if containsStr msg_lower "confirm-gca-health-check-clicked" ||
      containsStr msg_lower "user clicked health check" then
    .phase4VerifySuccess
  else if containsStr msg_lower "confirm-gca-health-success" ||
      containsStr msg_lower "user confirmed success" then
    .phase5SelectAgent
  else if containsStr msg_lower "confirm-gca-selected" ||
      containsStr msg_lower "user selected gca" then
    .authTransition
  else if containsStr msg_lower "guide-jira-oauth" then .jiraOauthGuide
  else if containsStr msg_lower "confirm-jira-oauth-done" then .jiraOauthDone
  else if containsStr msg_lower "confirm-auth-success" then .authSuccess
  else if containsStr msg_lower "start-gca-install-guide" then .gcaInstallGuide
  else if containsStr msg_lower "authentication type" || containsStr msg_lower "client id" ||
      containsStr msg_lower "client secret" then
    .authTypeField
  else if containsStr msg_lower "graph connector agent" || containsStr msg_lower "agent" then
    .agentDropdown
  else .generalField

/-- The system-prompt selection of the `/agent/chat` handler (app.py lines
244-1032): the default DOM-guided prompt unless a trigger token is found,
in which case the if/elif chain runs, its first branch computing the
deterministic display-name suggestion `f"{tool_name} {default_obj} {today_str}"`. -/
def selectPrompt (user_msg today_str : String) : SystemPrompt :=
  let msg_lower := lower user_msg
  if triggered msg_lower then
    if nameBranchCond msg_lower then
      let combined_text := lower user_msg
      let p := toolAndObj combined_text user_msg
      .displayName p.1 p.2 (p.1 ++ " " ++ p.2 ++ " " ++ today_str)
    else restChain msg_lower
  else .defaultDomGuide

/-- Result record of a successful `client.me.get()` Graph call (app.py line 1062). -/
structure UserInfo where
  display_name : String
  mail : String
  id : String
deriving DecidableEq, Repr

/-- Oracle for a `GraphServiceClient`: the outcome its `me.get()` call will
produce — `.ok` a user record, or `.error` the exception text. -/
structure GraphClient where
  me : Except String UserInfo

/-- The dictionary stored in `SessionState.auth_code_info`. The source
stores two distinct shapes in this one slot: the device-code record
written by `device_code_callback` (app.py lines 110-115) and the error
record written by the failure path of `perform_login` (line 139). -/
inductive AuthCodeInfo where
  /-- `{"verification_uri", "user_code", "expires_on", "message"}` (lines 110-115). -/
  | codeInfo (verification_uri user_code expires_on message : String)
  /-- `{"error": str(e)}` (line 139). -/
  | errorInfo (error : String)
deriving DecidableEq, Repr

/-- Request body of `POST /agent/chat` (app.py lines 224-227). -/
structure ChatRequest where
  message : String
  context_url : String := ""
  dom_snippet : String := ""
deriving DecidableEq, Repr

/-- The exact payload composed by `chat` for the Completion Broker (app.py
lines 1037-1041): the selected system prompt (abstracted as its tag with
its computed parameters), the `[Context]` system message's payload, and
the user message. Temperature, token limit and deployment name are
environment configuration, outside the model. -/
structure InstructionBundle where
  systemPrompt : SystemPrompt
  contextInfo : String
  userMessage : String

/-- `context_info` (app.py line 242): includes the DOM snippet truncated to
15000 characters when it is non-empty (Python truthiness). -/
def contextInfoOf (req : ChatRequest) : String :=
  if req.dom_snippet = "" then "Current URL: " ++ req.context_url
  else
    "Current URL: " ++ req.context_url ++ "\n\n[Simplified Page DOM]\n" ++
      req.dom_snippet.take 15000

/-- The composed instruction bundle of one chat call. -/
def buildBundle (req : ChatRequest) (today_str : String) : InstructionBundle :=
  { systemPrompt := selectPrompt req.message today_str
    contextInfo := contextInfoOf req
    userMessage := req.message }

/-- Completion Broker oracle: maps the composed instruction bundle to the
generated text (`.ok`, the `completion.choices[0].message.content`) or
the exception text of a failed call (`.error`). -/
def Broker : Type := InstructionBundle → Except String String

/-- Per-session state (app.py lines 26-35). `auth_code_info = none` models
Python `None`; `ai_client` is declared in `__init__` and never assigned
elsewhere. `credential` is kept abstract (presence only). -/
structure SessionState where
  client : Option GraphClient := none
  credential : Option Unit := none
  is_authenticated : Bool := false
  auth_code_info : Option AuthCodeInfo := none
  ai_client : Option Broker := none

/-- The global `sessions: Dict[str, SessionState]` (app.py line 38), as an
association list keyed by session id. The source never inserts a key
twice (`login` guards insertion with `session_id not in sessions`), so
first-match lookup and all-match update agree with dict semantics. -/
def Sessions : Type := List (String × SessionState)

/-- Dictionary lookup `sessions[sid]` / membership `sid in sessions`. -/
def lookupS : Sessions → String → Option SessionState
  | [], _ => none
  | (k, v) :: rest, sid => if k = sid then some v else lookupS rest sid

/-- In-place mutation of the session object stored under `sid`. -/
def updateS : Sessions → String → (SessionState → SessionState) → Sessions
  | [], _, _ => []
  | (k, v) :: rest, sid, f =>
    if k = sid then (k, f v) :: updateS rest sid f else (k, v) :: updateS rest sid f

/-- `verification_uri if verification_uri else "https://microsoft.com/devicelogin"`
(app.py line 106); the empty string is falsy in Python. -/
def safeVerificationUri (uri : String) : String :=
  if uri = "" then "https://microsoft.com/devicelogin" else uri

/-- `user_code if user_code else "UNKNOWN_CODE"` (app.py line 107). -/
def safeUserCode (code : String) : String :=
  if code = "" then "UNKNOWN_CODE" else code

/-- `device_code_callback` (app.py lines 101-115): captures the device code
for a session, writing the code record into `auth_code_info` when the
session id is known and doing nothing otherwise. `expires_on` is the
already-rendered string of the expiry (`isoformat()`/`str`). -/
def device_code_callback (ss : Sessions) (session_id : String)
    (verification_uri user_code expires_on : String) : Sessions :=
  match lookupS ss session_id with
  | some _ =>
    updateS ss session_id (fun s =>
      { s with auth_code_info := some (.codeInfo (safeVerificationUri verification_uri)
          (safeUserCode user_code) expires_on "Please sign in to authenticate.") })
  | none => ss

/-- `perform_login` (app.py lines 117-139), the background auth task, run to
completion. Returns unchanged when the session is unknown or has no
client. On a successful `client.me.get()` it sets
`is_authenticated = True` and clears `auth_code_info`; when the call
raises, the blanket `except` stores `{"error": str(e)}` into
`auth_code_info` (re-checking session membership, which is unchanged). -/
def perform_login (ss : Sessions) (session_id : String) : Sessions :=
  match lookupS ss session_id with
  | none => ss
  | some session =>
    match session.client with
    | none => ss
    | some gc =>
      match gc.me with
      | .ok _ =>
        updateS ss session_id (fun s =>
          { s with is_authenticated := true, auth_code_info := none })
      | .error e =>
        updateS ss session_id (fun s =>
          { s with auth_code_info := some (.errorInfo e) })

/-- Response bodies of `POST /auth/login` (app.py lines 155-201). -/
inductive LoginResponse where
  /-- `{"status": "error", "message": message}` (line 166). -/
  | statusError (message : String)
  /-- `{"status": "success", "message": message}` (line 176). -/
  | statusSuccess (message : String)
  /-- `{"status": "pending_interaction", "details": details, "instruction": instruction}` (lines 197-201). -/
  | pendingInteraction (details instruction : String)
deriving DecidableEq, Repr

/-- The guarded insertion performed by the login handler:
`if session_id not in sessions: sessions[session_id] = SessionState()`
(app.py lines 170-171). -/
def loginSessionsAfter (ss : Sessions) (sid : String) : Sessions :=
  if (lookupS ss sid).isNone then (sid, {}) :: ss else ss

/-- `POST /auth/login` (app.py lines 155-201). `x_session_id = none` models a
missing header; Python's `if not x_session_id` also catches the empty
string. A fresh `SessionState()` is inserted for an unseen id; an
authenticated session short-circuits; otherwise `auth_code_info` is
reset, a credential and a Graph client (`gc`, the oracle for the
background task this handler spawns) are installed, and the pending
response is returned. -/
def login (ss : Sessions) (x_session_id : Option String) (gc : GraphClient) :
    LoginResponse × Sessions :=
  match x_session_id with
  | none => (.statusError "Missing X-Session-ID header", ss)
  | some sid =>
    if sid = "" then (.statusError "Missing X-Session-ID header", ss)
    else if ((lookupS (loginSessionsAfter ss sid) sid).getD {}).is_authenticated then
      (.statusSuccess "Already authenticated", loginSessionsAfter ss sid)
    else
      (.pendingInteraction "Authentication started in background."
          "Poll /auth/code to get the device code.",
        updateS (loginSessionsAfter ss sid) sid (fun s =>
          { s with auth_code_info := none, credential := some (), client := some gc }))

/-- Response bodies of `GET /auth/code` (app.py lines 203-219). `present`
spreads whatever dictionary is stored in `auth_code_info`. -/
inductive AuthCodeResponse where
  | waiting (message : String)
  | present (info : AuthCodeInfo)
  | authenticated
deriving DecidableEq, Repr

/-- `GET /auth/code` (app.py lines 203-219): a pure read of the session's
current auth state; always a 200 body, never an exception. -/
def get_auth_code (ss : Sessions) (x_session_id : Option String) : AuthCodeResponse :=
  match x_session_id with
  | none => .waiting "Session not found."
  | some sid =>
    if sid = "" then .waiting "Session not found."
    else
      match lookupS ss sid with
      | none => .waiting "Session not found."
      | some session =>
        if session.is_authenticated then .authenticated
        else
          match session.auth_code_info with
          | some info => .present info
          | none => .waiting "Waiting for device code generation..."

/-- Outcome of one HTTP handler invocation: a 200 body, a raised
`HTTPException(status_code, detail)`, or an exception escaping the
handler (which the framework converts to a 500 response). -/
inductive HttpOutcome (α : Type) where
  | ok (body : α)
  | httpError (statusCode : Nat) (detail : String)
  | unhandledExc (exc : String)

/-- True exactly for a 200 body. -/
def HttpOutcome.isSuccess {α : Type} : HttpOutcome α → Bool
  | .ok _ => true
  | _ => false

/-- The module's global namespace, as visible to the request handlers:
`sessions` (line 38), `global_ai_client` (line 39, possibly replaced at
startup by the lifespan hook), and the name `state`, referenced by
`get_me` and `chat` — `none` means the name is unbound and referencing
it raises `NameError`. -/
structure ModuleGlobals where
  sessions : Sessions
  global_ai_client : Option Broker
  state : Option SessionState

/-- The exception text of referencing the unbound global `state`. -/
def nameErrorState : String := "name 'state' is not defined"

/-- Inline error body of the chat handler's blanket `except` (app.py line 1050). -/
def aiErrorResponse (e : String) : String :=
  "🤖 **AI Error:** I encountered an issue connecting to my brain.\n\n`" ++ e ++ "`"

/-- Fallback body when Azure OpenAI is unconfigured (app.py lines 236-238). -/
def notConfiguredResponse : String :=
  "⚠️ **Azure OpenAI is not configured.** Please set up your `.env` file with Endpoint and Key."

/-- `POST /agent/chat` (app.py lines 229-1050). The handler receives the
session-id header but its body never reads it, nor the session store.
After the unconfigured-client fallback, the prompt selection and
context composition run, then the `try` block evaluates
`state.ai_client.chat.completions.create(...)`: evaluating the unbound
name `state` raises `NameError`, an unset `ai_client` raises
`AttributeError`, and a failing broker call raises; every one of these
is caught by the blanket `except`, which returns the 200 inline error
body. On success the broker's text is returned as `{"response": ...}`. -/
def chat (g : ModuleGlobals) (req : ChatRequest) (x_session_id : Option String)
    (today_str : String) : HttpOutcome String :=
  match g.global_ai_client with
  | none => .ok notConfiguredResponse
  | some _ =>
    match g.state with
    | none => .ok (aiErrorResponse nameErrorState)
    | some st =>
      match st.ai_client with
      | none => .ok (aiErrorResponse "'NoneType' object has no attribute 'chat'")
      | some broker =>
        match broker (buildBundle req today_str) with
        | .ok text => .ok text
        | .error e => .ok (aiErrorResponse e)

/-- `GET /me` (app.py lines 1052-1065). The first statement reads the
unbound global `state`, so every call raises `NameError` before the
401 guard can run; the remaining branches model the dead code that the
guard and `try` would execute if `state` were bound. -/
def get_me (g : ModuleGlobals) : HttpOutcome UserInfo :=
  match g.state with
  | none => .unhandledExc nameErrorState
  | some st =>
    if !st.is_authenticated || st.client.isNone then
      .httpError 401 "Not authenticated yet."
    else
      match st.client with
      | some gc =>
        match gc.me with
        | .ok u => .ok u
        | .error e => .httpError 500 e
      | none => .httpError 401 "Not authenticated yet."

/-- Events that mutate the module's global namespace over the process
lifetime: the startup hook configuring the AI client (app.py lines
49-60), the state effects of `POST /auth/login`, the device-code
callback, resolution of a background auth task, and the shutdown hook
clearing the sessions dict (line 66). No event binds the name `state`. -/
inductive GEvent where
  | startupConfigure (b : Broker)
  | loginRequest (sid : Option String) (gc : GraphClient)
  | deviceCallback (sid : String) (uri code expires : String)
  | authTaskFinish (sid : String)
  | shutdownClear

/-- Effect of one lifetime event on the global namespace. -/
def gstep (g : ModuleGlobals) : GEvent → ModuleGlobals
  | .startupConfigure b => { g with global_ai_client := some b }
  | .loginRequest sid gc => { g with sessions := (login g.sessions sid gc).2 }
  | .deviceCallback sid uri code expires =>
    { g with sessions := device_code_callback g.sessions sid uri code expires }
  | .authTaskFinish sid => { g with sessions := perform_login g.sessions sid }
  | .shutdownClear => { g with sessions := [] }

/-- The global namespace right after the module loads: empty session dict,
`global_ai_client = None`, and no binding for `state`. -/
def initialGlobals : ModuleGlobals :=
  { sessions := [], global_ai_client := none, state := none }

/-- The global namespace reached by a sequence of lifetime events. -/
def runEvents (es : List GEvent) : ModuleGlobals :=
  es.foldl gstep initialGlobals


/-! ### Helper lemmas -/

/-- Updating the entry under `sid` is observed by a subsequent lookup of `sid`. -/
theorem lookup_update (ss : Sessions) (sid : String) (f : SessionState → SessionState) :
    lookupS (updateS ss sid f) sid = (lookupS ss sid).map f := by
  induction ss with
  | nil => rfl
  | cons kv tl ih =>
    obtain ⟨k, v⟩ := kv
    by_cases h : k = sid <;> simp [updateS, lookupS, h, ih]

/-- After the guarded insertion, the session id is always present, bound to
the previous entry or to a fresh default state. -/
theorem lookup_loginSessionsAfter (ss : Sessions) (sid : String) :
    lookupS (loginSessionsAfter ss sid) sid = some ((lookupS ss sid).getD {}) := by
  unfold loginSessionsAfter
  cases h : lookupS ss sid with
  | none => simp [h, lookupS]
  | some s => simp [h]

/-- No branch of the chain below the display-name branch selects the
connection-naming prompt. -/
theorem restChain_not_naming (ml : String) : (restChain ml).isNaming = false := by
  simp only [restChain, apply_ite SystemPrompt.isNaming]
  simp only [SystemPrompt.isNaming, ite_self]

/-- A successful `POST /auth/login` on a not-yet-authenticated session leaves
the session with a cleared device-code slot, an installed Graph client, and
an unchanged (false) authenticated flag. -/
theorem login_session_reset (ss : Sessions) (sid : String) (gc : GraphClient)
    (hsid : sid ≠ "")
    (hna : ∀ s, lookupS ss sid = some s → s.is_authenticated = false) :
    ∃ s, lookupS (login ss (some sid) gc).2 sid = some s
      ∧ s.is_authenticated = false ∧ s.auth_code_info = none ∧ s.client = some gc := by
  have hauth : ((lookupS ss sid).getD {}).is_authenticated = false := by
    cases h : lookupS ss sid with
    | none => rfl
    | some s => exact hna s h
  have hmain : lookupS (login ss (some sid) gc).2 sid
      = some { (lookupS ss sid).getD {} with
               auth_code_info := none, credential := some (), client := some gc } := by
    simp [login, if_neg hsid, lookup_loginSessionsAfter, hauth, lookup_update]
  exact ⟨_, hmain, hauth, rfl, rfl⟩

/-- No event of the process lifetime binds the global name `state`. -/
theorem state_never_bound_from (es : List GEvent) :
    ∀ g : ModuleGlobals, g.state = none → (es.foldl gstep g).state = none := by
  induction es with
  | nil => intro g h; exact h
  | cons e tl ih =>
    intro g h
    refine ih (gstep g e) ?_
    cases e <;> simpa [gstep] using h

/-- In every reachable global namespace the name `state` is unbound. -/
theorem state_never_bound (es : List GEvent) : (runEvents es).state = none :=
  state_never_bound_from es initialGlobals rfl

/-! ### Claim theorems -/

/-- C8 counterexample: the structured error body returned by
`POST /auth/login` without a session-id header carries the message
`"Missing X-Session-ID header"`, not the message `"Missing session id"`
stated by the claim. -/
theorem login_missing_header_message_cex :
    (login [] none { me := .ok { display_name := "", mail := "", id := "" } }).1
        = .statusError "Missing X-Session-ID header"
  ∧ (login [] none { me := .ok { display_name := "", mail := "", id := "" } }).1
        ≠ .statusError "Missing session id" :=
  ⟨rfl, by decide⟩

/-- C8 (amended): calling `POST /auth/login` without a session-id header
returns the structured error body `{status: "error", message: "Missing
X-Session-ID header"}` and leaves the session store untouched; no
exception is raised. -/
theorem login_missing_header (ss : Sessions) (gc : GraphClient) :
    (login ss none gc).1 = .statusError "Missing X-Session-ID header"
  ∧ (login ss none gc).2 = ss :=
  ⟨rfl, rfl⟩

/-- C9: for a missing session-id header, or a session id absent from the
session store, `GET /auth/code` returns the 200 body
`{status: "waiting", message: "Session not found."}` — it never raises or
returns a not-found error. -/
theorem auth_code_unknown_session (ss : Sessions) (hdr : Option String)
    (h : hdr = none ∨ ∀ sid, hdr = some sid → lookupS ss sid = none) :
    get_auth_code ss hdr = .waiting "Session not found." := by
  cases hdr with
  | none => rfl
  | some sid =>
    rcases h with h | h
    · exact absurd h (by simp)
    · have hl := h sid rfl
      by_cases hs : sid = "" <;> simp [get_auth_code, hs, hl]

/-- C9 witness: both a missing header and an unknown session id hit the
`"Session not found."` waiting response. -/
theorem auth_code_unknown_session_witness :
    get_auth_code [] none = .waiting "Session not found."
  ∧ get_auth_code [] (some "s1") = .waiting "Session not found." :=
  ⟨auth_code_unknown_session [] none (Or.inl rfl),
   auth_code_unknown_session [] (some "s1")
     (Or.inr (fun sid h => by cases h; rfl))⟩

/-- C10: the `/agent/chat` response depends only on the request body and the
AI-relevant globals — two calls with the same request but different (or
missing) session-id headers and different session stores produce the same
outcome, hence the same classification and instruction bundle. -/
theorem chat_ignores_session (req : ChatRequest) (today_str : String)
    (g g2 : ModuleGlobals) (sid sid2 : Option String)
    (hai : g.global_ai_client = g2.global_ai_client) (hst : g.state = g2.state) :
    chat g req sid today_str = chat g2 req sid2 today_str := by
  unfold chat
  rw [hai, hst]

/-- C10 witness: an authenticated session in the store and a session-id
header change nothing about the chat outcome. -/
theorem chat_ignores_session_witness :
    chat { sessions := [("s1", { is_authenticated := true })], global_ai_client := none,
           state := none }
        { message := "phase 2 name" } (some "s1") "20261012"
      = chat { sessions := [], global_ai_client := none, state := none }
          { message := "phase 2 name" } none "20261012" :=
  chat_ignores_session { message := "phase 2 name" } "20261012" _ _ (some "s1") none rfl rfl

/-- C7: a generation-backend failure never produces an HTTP error from
`POST /agent/chat`: the outcome is always a 200 body; with an unconfigured
client it is the fixed not-configured message, and when the backend call
raises it is the inline AI-error body carrying the exception text. -/
theorem chat_degrades_gracefully (g : ModuleGlobals) (req : ChatRequest)
    (x_session_id : Option String) (today_str : String) :
    (chat g req x_session_id today_str).isSuccess = true
  ∧ (g.global_ai_client = none → chat g req x_session_id today_str = .ok notConfiguredResponse)
  ∧ (∀ st b e, g.global_ai_client ≠ none → g.state = some st → st.ai_client = some b →
      b (buildBundle req today_str) = .error e →
      chat g req x_session_id today_str = .ok (aiErrorResponse e)) := by
  refine ⟨?_, ?_, ?_⟩
  · unfold chat
    repeat' split
    all_goals rfl
  · intro h
    simp [chat, h]
  · intro st b e hcfg hst hai hberr
    cases hc : g.global_ai_client with
    | none => exact absurd hc hcfg
    | some _ => simp [chat, hc, hst, hai, hberr]

/-- C7 witness: the not-configured fallback and the inline error body at
concrete inputs. -/
theorem chat_degrades_gracefully_witness :
    chat { sessions := [], global_ai_client := none, state := none }
        { message := "hi" } none "20261012" = .ok notConfiguredResponse
  ∧ chat { sessions := [], global_ai_client := some (fun _ => .ok "t"),
           state := some { ai_client := some (fun _ => .error "boom") } }
        { message := "hi" } none "20261012" = .ok (aiErrorResponse "boom") :=
  ⟨(chat_degrades_gracefully _ { message := "hi" } none "20261012").2.1 rfl,
   (chat_degrades_gracefully _ { message := "hi" } none "20261012").2.2
     { ai_client := some (fun _ => .error "boom") } (fun _ => .error "boom") "boom"
     (fun h => Option.noConfusion h) rfl rfl rfl⟩

/-- C1 counterexample: the message `"confirm the output matches the name"`
contains the machine action token `"confirm the output matches"` and the
generic keyword `"name"`, yet the classifier resolves it to the
display-name keyword branch, not to the Phase-1 installation prompt
implied by the action token — the name branch precedes the action-token
branches in the chain and only carves out `"phase 2"`. -/
theorem classifier_priority_cex :
    containsStr (lower "confirm the output matches the name") "confirm the output matches" = true
  ∧ containsStr (lower "confirm the output matches the name") "name" = true
  ∧ selectPrompt "confirm the output matches the name" "20261012" ≠ SystemPrompt.phase1Install
  ∧ selectPrompt "confirm the output matches the name" "20261012"
      = .displayName "Tool" "Items" "Tool Items 20261012" :=
  ⟨by decide, by decide, by decide, by rfl⟩

/-- C1 (amended): the priority rule holds for the one action token the name
branch guards against — a message containing both `"phase 2"` and `"name"`
(and none of the three branch tokens checked before `"phase 2"`) resolves
to the phase implied by `"phase 2"`, never to the name-keyword branch; for
other action tokens co-occurring with `"name"`, such as
`"confirm the output matches"`, the name branch wins (see the
counterexample). -/
theorem classifier_priority_phase2 (user_msg today_str : String)
    (h1 : containsStr (lower user_msg) "phase 2" = true)
    (h2 : containsStr (lower user_msg) "name" = true)
    (h3 : containsStr (lower user_msg) "description" = false)
    (h4 : containsStr (lower user_msg) "confirm the output matches" = false)
    (h5 : containsStr (lower user_msg) "phase 1" = false) :
    selectPrompt user_msg today_str = SystemPrompt.phase3AzureApp := by
  have ht : triggered (lower user_msg) = true := by
    simp [triggered, triggers, h1]
  have hn : nameBranchCond (lower user_msg) = false := by
    simp [nameBranchCond, h1]
  simp [selectPrompt, ht, hn, restChain, h1, h3, h4, h5]

/-- C1 witness: `"phase 2 name"` resolves to the Phase-3 prompt selected by
the `"phase 2"` action token, not to the name branch. -/
theorem classifier_priority_phase2_witness :
    selectPrompt "phase 2 name" "20261012" = SystemPrompt.phase3AzureApp :=
  classifier_priority_phase2 "phase 2 name" "20261012"
    (by decide) (by decide) (by decide) (by decide) (by decide)

/-- C2: for every message the classifier sends to the naming branch, the
computed display-name suggestion is deterministic: a message containing
`"jira"` yields exactly `"Jira Tickets " ++ today`; one containing
`"servicenow"` (and not the higher-priority `"jira"`) yields exactly
`"ServiceNow Incidents " ++ today`; and one matching no recognized tool
keyword and carrying no quoted connector-context label yields exactly
`"Tool Items " ++ today`. -/
theorem naming_suggestion_deterministic (user_msg today_str : String)
    (hclass : (selectPrompt user_msg today_str).isNaming = true) :
    (containsStr (lower user_msg) "jira" = true →
        selectPrompt user_msg today_str
          = .displayName "Jira" "Tickets" ("Jira Tickets " ++ today_str))
  ∧ (containsStr (lower user_msg) "servicenow" = true → containsStr (lower user_msg) "jira" = false →
        selectPrompt user_msg today_str
          = .displayName "ServiceNow" "Incidents" ("ServiceNow Incidents " ++ today_str))
  ∧ (noToolKeyword (lower user_msg) = true → connectorContextLabel user_msg = none →
        selectPrompt user_msg today_str
          = .displayName "Tool" "Items" ("Tool Items " ++ today_str)) := by
  by_cases ht : triggered (lower user_msg)
  case neg => simp [selectPrompt, ht, SystemPrompt.isNaming] at hclass
  by_cases hb : nameBranchCond (lower user_msg)
  case neg => simp [selectPrompt, ht, hb, restChain_not_naming] at hclass
  have hsel : selectPrompt user_msg today_str
      = .displayName (toolAndObj (lower user_msg) user_msg).1
          (toolAndObj (lower user_msg) user_msg).2
          ((toolAndObj (lower user_msg) user_msg).1 ++ " "
            ++ (toolAndObj (lower user_msg) user_msg).2 ++ " " ++ today_str) := by
    simp [selectPrompt, ht, hb]
  refine ⟨?_, ?_, ?_⟩
  · intro hj
    have htool : toolAndObj (lower user_msg) user_msg = ("Jira", "Tickets") := by
      simp [toolAndObj, hj]
    rw [hsel, htool]; rfl
  · intro hs hj
    have htool : toolAndObj (lower user_msg) user_msg = ("ServiceNow", "Incidents") := by
      simp [toolAndObj, hs, hj]
    rw [hsel, htool]; rfl
  · intro hk hctx
    simp only [noToolKeyword, Bool.and_eq_true, Bool.not_eq_true'] at hk
    obtain ⟨⟨⟨⟨⟨⟨⟨⟨k1, k2⟩, k3⟩, k4⟩, k5⟩, k6⟩, k7⟩, k8⟩, k9⟩ := hk
    have htool : toolAndObj (lower user_msg) user_msg = ("Tool", "Items") := by
      simp [toolAndObj, k1, k2, k3, k4, k5, k6, k7, k8, k9, hctx]
    rw [hsel, htool]; rfl

/-- C2 witness: a naming-classified message containing `"jira"` computes the
exact suggestion `"Jira Tickets 20261012"`. -/
theorem naming_suggestion_deterministic_witness :
    (selectPrompt "field_focus name jira" "20261012").isNaming = true
  ∧ selectPrompt "field_focus name jira" "20261012"
      = .displayName "Jira" "Tickets" ("Jira Tickets " ++ "20261012") :=
  ⟨by decide,
   (naming_suggestion_deterministic "field_focus name jira" "20261012" (by decide)).1 (by decide)⟩

/-- C3: along the device-code lifecycle of any session that is not already
authenticated — login, then the device-code callback, then successful
completion of the background task — polling `GET /auth/code` returns, in
order: `waiting` before the callback has fired; `present` carrying exactly
the verification URI and user code captured by the callback (after its
falsy-value defaults); and `authenticated` after success, at which point
the stored device-code record has been cleared. -/
theorem auth_code_poll_lifecycle (ss : Sessions) (sid : String) (gc : GraphClient)
    (uri code expires : String) (u : UserInfo)
    (hsid : sid ≠ "")
    (hna : ∀ s, lookupS ss sid = some s → s.is_authenticated = false)
    (hok : gc.me = .ok u) :
    get_auth_code (login ss (some sid) gc).2 (some sid)
        = .waiting "Waiting for device code generation..."
  ∧ get_auth_code (device_code_callback (login ss (some sid) gc).2 sid uri code expires)
        (some sid)
      = .present (.codeInfo (safeVerificationUri uri) (safeUserCode code) expires
          "Please sign in to authenticate.")
  ∧ get_auth_code
        (perform_login (device_code_callback (login ss (some sid) gc).2 sid uri code expires) sid)
        (some sid)
      = .authenticated
  ∧ ∃ s, lookupS
        (perform_login (device_code_callback (login ss (some sid) gc).2 sid uri code expires) sid)
        sid
      = some s ∧ s.auth_code_info = none := by
  obtain ⟨s1, hl1, ha1, hi1, hc1⟩ := login_session_reset ss sid gc hsid hna
  have hcb : device_code_callback (login ss (some sid) gc).2 sid uri code expires
      = updateS (login ss (some sid) gc).2 sid (fun s =>
          { s with auth_code_info := some (.codeInfo (safeVerificationUri uri)
              (safeUserCode code) expires "Please sign in to authenticate.") }) := by
    simp [device_code_callback, hl1]
  have hl2 : lookupS (device_code_callback (login ss (some sid) gc).2 sid uri code expires) sid
      = some { s1 with auth_code_info := some (.codeInfo (safeVerificationUri uri)
          (safeUserCode code) expires "Please sign in to authenticate.") } := by
    rw [hcb, lookup_update, hl1, Option.map_some']
  have hpl : perform_login (device_code_callback (login ss (some sid) gc).2 sid uri code expires)
        sid
      = updateS (device_code_callback (login ss (some sid) gc).2 sid uri code expires) sid
          (fun s => { s with is_authenticated := true, auth_code_info := none }) := by
    simp [perform_login, hl2, hc1, hok]
  have hl3 : lookupS
        (perform_login (device_code_callback (login ss (some sid) gc).2 sid uri code expires) sid)
        sid
      = some { s1 with is_authenticated := true, auth_code_info := none } := by
    rw [hpl, lookup_update, hl2, Option.map_some']
  refine ⟨?_, ?_, ?_, ?_⟩
  · simp [get_auth_code, hsid, hl1, ha1, hi1]
  · simp [get_auth_code, hsid, hl2, ha1]
  · simp [get_auth_code, hsid, hl3]
  · exact ⟨_, hl3, rfl⟩

/-- C3 witness: the full lifecycle on a fresh session `"s1"` with a
successful Graph call. -/
theorem auth_code_poll_lifecycle_witness :
    get_auth_code (login [] (some "s1") { me := .ok { display_name := "A", mail := "a@b", id := "1" } }).2
        (some "s1")
      = .waiting "Waiting for device code generation..."
  ∧ get_auth_code (device_code_callback
        (login [] (some "s1") { me := .ok { display_name := "A", mail := "a@b", id := "1" } }).2
        "s1" "https://login" "CODE1" "2099-01-01") (some "s1")
      = .present (.codeInfo (safeVerificationUri "https://login") (safeUserCode "CODE1")
          "2099-01-01" "Please sign in to authenticate.")
  ∧ get_auth_code (perform_login (device_code_callback
        (login [] (some "s1") { me := .ok { display_name := "A", mail := "a@b", id := "1" } }).2
        "s1" "https://login" "CODE1" "2099-01-01") "s1") (some "s1")
      = .authenticated
  ∧ ∃ s, lookupS (perform_login (device_code_callback
        (login [] (some "s1") { me := .ok { display_name := "A", mail := "a@b", id := "1" } }).2
        "s1" "https://login" "CODE1" "2099-01-01") "s1") "s1"
      = some s ∧ s.auth_code_info = none :=
  auth_code_poll_lifecycle [] "s1" { me := .ok { display_name := "A", mail := "a@b", id := "1" } }
    "https://login" "CODE1" "2099-01-01" { display_name := "A", mail := "a@b", id := "1" }
    (by decide) (fun s h => by simp [lookupS] at h) rfl

/-- C4 counterexample: after the background auth task fails (here with
exception text `"boom"`), the failure IS stored in the deviceCode slot —
`auth_code_info` holds `{"error": "boom"}` while the session is not
authenticated (no `Failed` status or `lastError` field exists), and a
subsequent poll even reports it with status `present`. This refutes the
claimed invariant that the record is non-empty only while `CodePending`
and that failures are recorded outside the deviceCode slot. -/
theorem device_slot_invariant_cex :
    (lookupS (perform_login (login [] (some "s1") { me := .error "boom" }).2 "s1") "s1").map
        (fun s => (s.auth_code_info, s.is_authenticated))
      = some (some (.errorInfo "boom"), false)
  ∧ get_auth_code (perform_login (login [] (some "s1") { me := .error "boom" }).2 "s1")
        (some "s1")
      = .present (.errorInfo "boom") :=
  ⟨rfl, rfl⟩

/-- C4 (amended): when the background auth task fails for a session whose
Graph call raises `e`, the error is recorded in the deviceCode slot itself
as `{"error": e}` — there is no separate `Failed` status or `lastError`
field — and the authenticated flag is left unchanged; consequently
`auth_code_info` can be non-empty in a failed (non-pending) state. -/
theorem device_slot_failure (ss : Sessions) (sid : String) (s : SessionState)
    (gc : GraphClient) (e : String)
    (hl : lookupS ss sid = some s) (hc : s.client = some gc) (hme : gc.me = .error e) :
    ∃ s2, lookupS (perform_login ss sid) sid = some s2
      ∧ s2.auth_code_info = some (.errorInfo e)
      ∧ s2.is_authenticated = s.is_authenticated := by
  have hpl : perform_login ss sid
      = updateS ss sid (fun t => { t with auth_code_info := some (.errorInfo e) }) := by
    simp [perform_login, hl, hc, hme]
  have hlook : lookupS (perform_login ss sid) sid
      = some { s with auth_code_info := some (.errorInfo e) } := by
    rw [hpl, lookup_update, hl, Option.map_some']
  exact ⟨_, hlook, rfl, rfl⟩

/-- C4 amended-claim witness at a concrete failing session. -/
theorem device_slot_failure_witness :
    ∃ s2, lookupS (perform_login [("s1", { client := some { me := .error "x" } })] "s1") "s1"
        = some s2
      ∧ s2.auth_code_info = some (.errorInfo "x")
      ∧ s2.is_authenticated
        = ({ client := some { me := .error "x" } } : SessionState).is_authenticated :=
  device_slot_failure [("s1", { client := some { me := .error "x" } })] "s1"
    { client := some { me := .error "x" } } { me := .error "x" } "x" rfl rfl rfl

/-- C5: the claim states `GET /me` answers 401 for every session that is not
authenticated; in the code, however, the handler's first statement reads
the global name `state`, which is never bound in any reachable state of
the process (the `AgentState` global was removed), so every call raises
`NameError` — surfaced by the framework as a 500 — and the 401 guard is
unreachable. -/
theorem me_raises_name_error (es : List GEvent) :
    get_me (runEvents es) = .unhandledExc nameErrorState
  ∧ get_me (runEvents es) ≠ .httpError 401 "Not authenticated yet." := by
  have h : (runEvents es).state = none := state_never_bound es
  refine ⟨?_, ?_⟩ <;> simp [get_me, h, nameErrorState]

/-- C6: the claim states that with a configured backend the chat handler
invokes the Completion Broker and returns its generated text; in the code
the `try` block evaluates `state.ai_client`, and since the global name
`state` is unbound in every reachable process state, the call raises
`NameError` before any broker invocation — caught by the blanket
`except`, the handler returns the inline AI-error body, for every broker
`b` alike. -/
theorem chat_never_reaches_broker (es : List GEvent) (req : ChatRequest)
    (x_session_id : Option String) (today_str : String) (b : Broker)
    (hcfg : (runEvents es).global_ai_client = some b) :
    chat (runEvents es) req x_session_id today_str = .ok (aiErrorResponse nameErrorState) := by
  have h : (runEvents es).state = none := state_never_bound es
  simp [chat, hcfg, h]

/-- C6 witness: right after startup configures the AI client, a chat request
yields the inline `NameError` body, not the broker's text. -/
theorem chat_never_reaches_broker_witness :
    chat (runEvents [GEvent.startupConfigure (fun _ => Except.ok "generated text")])
        { message := "field_focus name jira" } none "20261012"
      = .ok (aiErrorResponse nameErrorState) :=
  chat_never_reaches_broker [GEvent.startupConfigure (fun _ => Except.ok "generated text")]
    { message := "field_focus name jira" } none "20261012"
    (fun _ => Except.ok "generated text") rfl
